import Mathlib

/- Batteries marks rational arithmetic `@[irreducible]`, which blocks
`decide` on concrete executions of the model below; restore the
default reducibility (the definitions are unchanged). -/
set_option allowUnsafeReducibility true in
attribute [semireducible] Rat.add Rat.sub Rat.mul Rat.inv Rat.div

/-!
# Verification of the continuous-recorder core of `whisper_stream.py`

Shallow embedding of the chunk-boundary engine, silence guard, VAD
tracking, finalization, command loop and inbound-command parsing of
`whisper_stream.py` (class `ContinuousRecorder` and `TCPServer`).

Modelling conventions:
* Python floats (times, durations, amplitudes, probabilities) are
  modelled as rationals `ℚ`.
* `time.time()` is modelled by an explicit `now : ℚ` argument; all
  clock reads inside one callback/step share the same `now`.
* An audio frame (`indata[:, 0]`) is a `List ℚ` of normalized samples.
* The external Silero VAD classifier (`self.vad_model(...)`) is an
  oracle input per evaluation: either a speech probability or an
  exception (`VadResult`).
* `tcp_server.send_event` calls are modelled by collecting the emitted
  events in a list; sends are modelled as succeeding (client connected).
  A failed send would additionally set `running := false` in
  `_emit_chunk_ready`.
* Persisted WAV chunk files are modelled by the ghost field
  `saved_chunks` holding each chunk's concatenated samples; chunk file
  names are determined by the chunk number, so `_save_chunk`'s return
  value is modelled as the new chunk number.  Chunk numbering restarts
  on each session (new sessions overwrite the previous session's chunk
  files), so `saved_chunks` holds the chunks of the current session.
* `audio_callback`'s `status` argument (device status) is modelled as
  absent (`status = None`): a truthy status only prepends an extra
  error event and changes nothing else.
-/

namespace WhisperStream

/-- An audio frame: normalized mono samples (float32 in [-1,1]). -/
abbrev Frame := List ℚ

/-- `SILENCE_AMPLITUDE_THRESHOLD = 0.01` (whisper_stream.py line 20). -/
def SILENCE_AMPLITUDE_THRESHOLD : ℚ := 1/100

/-- `PERFECT_SILENCE_DURATION_AT_START = 2.0` (line 21). -/
def PERFECT_SILENCE_DURATION_AT_START : ℚ := 2

/-- `VAD_SPEECH_THRESHOLD = 0.25` (line 22). -/
def VAD_SPEECH_THRESHOLD : ℚ := 1/4

/-- `VAD_CONSECUTIVE_SILENCE_REQUIRED = 2` (line 24). -/
def VAD_CONSECUTIVE_SILENCE_REQUIRED : ℕ := 2

/-- Events sent to the client via `tcp_server.send_event`.
`chunk_ready` carries the chunk number (which determines the file
path) and the `is_final` flag; `complete_file` carries the saved
file's audio content (the concatenation of `all_audio`). -/
inductive Event where
  | server_ready : Event
  | recording_started : Event
  | recording_stopped : Event
  | chunk_ready (chunk_num : ℕ) (is_final : Bool) : Event
  | complete_file (audio : List ℚ) : Event
  | silence_warning : Event
  | error (msg : String) : Event
  deriving Repr, DecidableEq

/-- Result of one external VAD classifier call: a speech probability,
or an exception with message `m` (the `except` branch of
`_detect_voice_activity`). -/
inductive VadResult where
  | ok (p : ℚ) : VadResult
  | err (m : String) : VadResult
  deriving Repr, DecidableEq

/-- Client commands dispatched by `_run_command_loop`; `disconnect` is
synthetic (generated by `receive_command`), `unknown` stands for any
unrecognized command string (ignored by the loop). -/
inductive Command where
  | start_recording : Command
  | stop_recording : Command
  | shutdown : Command
  | disconnect : Command
  | unknown : Command
  deriving Repr, DecidableEq

/-- The mutable state of `ContinuousRecorder` (constructor lines
301-337), including its configuration and the ghost `saved_chunks`. -/
structure Recorder where
  silence_threshold : ℚ
  min_chunk_duration : ℚ
  max_chunk_duration : ℚ
  chunk_num : ℕ
  current_chunk_audio : List Frame
  current_chunk_start_time : Option ℚ
  all_audio : List Frame
  silence_start_time : Option ℚ
  perfect_silence_start_time : Option ℚ
  mic_warning_shown : Bool
  startup_silence_check_done : Bool
  consecutive_silence_count : ℕ
  running : Bool
  recording : Bool
  mic_off : Bool
  saved_chunks : List (List ℚ)
  deriving Repr, DecidableEq

/-- `ContinuousRecorder.__init__` with the given configuration. -/
def initRecorder (st mn mx : ℚ) : Recorder where
  silence_threshold := st
  min_chunk_duration := mn
  max_chunk_duration := mx
  chunk_num := 0
  current_chunk_audio := []
  current_chunk_start_time := none
  all_audio := []
  silence_start_time := none
  perfect_silence_start_time := none
  mic_warning_shown := false
  startup_silence_check_done := false
  consecutive_silence_count := 0
  running := true
  recording := false
  mic_off := false
  saved_chunks := []

/-- Peak absolute amplitude `np.max(np.abs(audio_float))` (line 199).
On an empty frame Python would raise; frames produced by the audio
sources are never empty, and the fold's 0 base is below every real
peak. -/
def peakAbs (f : Frame) : ℚ := (f.map (fun x => |x|)).foldl max 0

/-- `is_perfect_silence` (lines 196-200): peak amplitude strictly below
`SILENCE_AMPLITUDE_THRESHOLD`.  `normalize_audio` is the identity on
the already-normalized float frames of this model. -/
def is_perfect_silence (f : Frame) : Bool :=
  decide (peakAbs f < SILENCE_AMPLITUDE_THRESHOLD)

/-- `_reset_recording_state` (lines 355-366). -/
def reset_recording_state (s : Recorder) : Recorder :=
  { s with
    chunk_num := 0
    current_chunk_audio := []
    current_chunk_start_time := none
    all_audio := []
    silence_start_time := none
    perfect_silence_start_time := none
    mic_warning_shown := false
    startup_silence_check_done := false
    mic_off := false
    consecutive_silence_count := 0
    saved_chunks := [] }

/-- `_detect_voice_activity` (lines 368-378): on success compare the
probability against `VAD_SPEECH_THRESHOLD` (strict `>`); on an
exception, emit one error event and return `true` (assume speech). -/
def detect_voice_activity (vr : VadResult) : Bool × List Event :=
  match vr with
  | .ok p => (decide (VAD_SPEECH_THRESHOLD < p), [])
  | .err m => (true, [Event.error ("VAD detection error: " ++ m)])

/-- `_save_chunk` (lines 380-401): no-op returning `None` on an empty
buffer; otherwise increment `chunk_num`, persist the concatenated
buffer, clear the buffer and restart the chunk clock at `now`.
Returns the new chunk number (which determines the written file's
name). -/
def save_chunk (now : ℚ) (s : Recorder) : Recorder × Option ℕ :=
  if s.current_chunk_audio = [] then (s, none)
  else
    ({ s with
        chunk_num := s.chunk_num + 1
        saved_chunks := s.saved_chunks ++ [s.current_chunk_audio.flatten]
        current_chunk_audio := []
        current_chunk_start_time := some now },
     some (s.chunk_num + 1))

/-- `_emit_chunk_ready` (lines 433-441): emit `chunk_ready` carrying
the current `chunk_num` when a file was written.  The send is modelled
as succeeding; a failed send would also set `running := false`. -/
def emit_chunk_ready (chunk_file : Option ℕ) (final : Bool) (s : Recorder) :
    Recorder × List Event :=
  match chunk_file with
  | none => (s, [])
  | some _ => (s, [Event.chunk_ready s.chunk_num final])

/-- The current chunk's start time.  Python dereferences
`self.current_chunk_start_time` directly (raising if it were `None`);
while a session is recording it is always set (by `start_recording`
and refreshed by `_save_chunk`), and the theorems below only evaluate
the duration checks in such states. -/
def chunkStart (s : Recorder) : ℚ := s.current_chunk_start_time.getD 0

/-- `_check_max_duration` (lines 443-450): flush and emit
`chunk_ready(is_final=False)` when the chunk's elapsed time reached
`max_chunk_duration`; the Bool reports whether the flush happened. -/
def check_max_duration (now : ℚ) (s : Recorder) :
    Recorder × List Event × Bool :=
  if s.max_chunk_duration ≤ now - chunkStart s then
    let sc := save_chunk now s
    let e := emit_chunk_ready sc.2 false sc.1
    (e.1, e.2, true)
  else (s, [], false)

/-- `_get_recent_audio` (lines 452-460): concatenate the last 10
frames of the chunk buffer; if at least 512 samples are available
return the trailing 512, else `None`. -/
def get_recent_audio (s : Recorder) : Option (List ℚ) :=
  let recent := (s.current_chunk_audio.drop (s.current_chunk_audio.length - 10)).flatten
  if 512 ≤ recent.length then some (recent.drop (recent.length - 512)) else none

/-- `_check_silence_boundary` (lines 462-477): flush only when the
silence timer is set, has run for at least `silence_threshold`, and
the chunk's elapsed time reached `min_chunk_duration`; on flush also
clear the silence timer and the consecutive-silence counter. -/
def check_silence_boundary (now : ℚ) (s : Recorder) :
    Recorder × List Event × Bool :=
  match s.silence_start_time with
  | none => (s, [], false)
  | some t1 =>
    if s.silence_threshold ≤ now - t1 then
      if s.min_chunk_duration ≤ now - chunkStart s then
        let sc := save_chunk now s
        let e := emit_chunk_ready sc.2 false sc.1
        ({ e.1 with silence_start_time := none, consecutive_silence_count := 0 },
         e.2, true)
      else (s, [], false)
    else (s, [], false)

/-- `_process_vad` (lines 479-494): on speech clear the silence timer
and counter; on silence increment the counter and start the timer once
the counter reaches `VAD_CONSECUTIVE_SILENCE_REQUIRED` (if not already
running). -/
def process_vad (now : ℚ) (vr : VadResult) (s : Recorder) :
    Recorder × List Event :=
  let d := detect_voice_activity vr
  if d.1 then
    ({ s with silence_start_time := none, consecutive_silence_count := 0 }, d.2)
  else
    let s1 := { s with consecutive_silence_count := s.consecutive_silence_count + 1 }
    if VAD_CONSECUTIVE_SILENCE_REQUIRED ≤ s1.consecutive_silence_count then
      match s1.silence_start_time with
      | none => ({ s1 with silence_start_time := some now }, d.2)
      | some _ => (s1, d.2)
    else (s1, d.2)

/-- `_save_complete_recording` (lines 665-683): returns the full
session audio (the saved file's content) unless nothing was captured. -/
def save_complete_recording (s : Recorder) : Recorder × Option (List ℚ) :=
  if s.all_audio = [] then (s, none) else (s, some s.all_audio.flatten)

/-- `_finalize_recording` (lines 685-707): no-op unless recording;
otherwise leave the Recording state, persist the full session file
(emitting `complete_file`), then — unless the mic-off flag is set —
flush any trailing chunk as final, and emit `recording_stopped`. -/
def finalize_recording (now : ℚ) (s : Recorder) : Recorder × List Event :=
  if s.recording = false then (s, [])
  else
    let s1 : Recorder := { s with recording := false }
    let c := save_complete_recording s1
    let ev1 := match c.2 with
      | some a => [Event.complete_file a]
      | none => []
    if c.1.mic_off then (c.1, ev1 ++ [Event.recording_stopped])
    else
      let r :=
        if c.1.current_chunk_audio = [] then (c.1, ([] : List Event))
        else
          let sc := save_chunk now c.1
          emit_chunk_ready sc.2 true sc.1
      (r.1, ev1 ++ r.2 ++ [Event.recording_stopped])

/-- `_check_perfect_silence` (lines 403-431): startup-only mic-off
guard.  Once `startup_silence_check_done` it never runs again; a
non-silent frame resolves it; sustained perfect silence for
`PERFECT_SILENCE_DURATION_AT_START` emits `silence_warning`, sets
`mic_off`, finalizes the recording session, and clears `running`. -/
def check_perfect_silence (now : ℚ) (frame : Frame) (s : Recorder) :
    Recorder × List Event :=
  if s.startup_silence_check_done then (s, [])
  else if is_perfect_silence frame = false then
    ({ s with startup_silence_check_done := true,
              perfect_silence_start_time := none }, [])
  else
    match s.perfect_silence_start_time with
    | none => ({ s with perfect_silence_start_time := some now }, [])
    | some t1 =>
      if PERFECT_SILENCE_DURATION_AT_START ≤ now - t1 then
        let s1 : Recorder := { s with mic_off := true }
        let f := if s1.recording then finalize_recording now s1 else (s1, [])
        ({ f.1 with running := false, startup_silence_check_done := true },
         Event.silence_warning :: f.2)
      else (s, [])

/-- Lines 511-514 of `audio_callback`: append the frame to the chunk
buffer and the full-session buffer. -/
def append_frame (frame : Frame) (s : Recorder) : Recorder :=
  { s with
    current_chunk_audio := s.current_chunk_audio ++ [frame]
    all_audio := s.all_audio ++ [frame] }

/-- `audio_callback` (lines 496-524): ignore frames while not
recording; evaluate the mic-off guard, append the frame, check the
max-duration boundary (returning early on flush), then — when a VAD
window is available — run the classifier and the silence boundary. -/
def audio_callback (now : ℚ) (frame : Frame) (vr : VadResult) (s : Recorder) :
    Recorder × List Event :=
  if s.recording = false then (s, [])
  else
    let g := check_perfect_silence now frame s
    let s1 := append_frame frame g.1
    let m := check_max_duration now s1
    if m.2.2 then (m.1, g.2 ++ m.2.1)
    else
      match get_recent_audio m.1 with
      | none => (m.1, g.2 ++ m.2.1)
      | some _ =>
        let v := process_vad now vr m.1
        let b := check_silence_boundary now v.1
        (b.1, g.2 ++ m.2.1 ++ v.2 ++ b.2.1)

/-- Per-frame ingestion, folded over a list of `(now, frame, vad)`
steps, collecting events. -/
def runFrames (steps : List (ℚ × Frame × VadResult)) (s : Recorder) :
    Recorder × List Event :=
  match steps with
  | [] => (s, [])
  | (now, frame, vr) :: rest =>
    let r := audio_callback now frame vr s
    let r2 := runFrames rest r.1
    (r2.1, r.2 ++ r2.2)

/-- `_process_vad` folded over a list of `(now, vad)` classifications
(events dropped). -/
def runVad (steps : List (ℚ × VadResult)) (s : Recorder) : Recorder :=
  match steps with
  | [] => s
  | (now, vr) :: rest => runVad rest (process_vad now vr s).1

/-- One command dispatch of `_run_command_loop` (lines 626-663).
`reconnect_ok` is the result of `wait_for_reconnect(timeout=60)` for a
`disconnect` command (`true` = a new client connected in time). -/
def handle_command (now : ℚ) (reconnect_ok : Bool) (cmd : Option Command)
    (s : Recorder) : Recorder × List Event :=
  match cmd with
  | none => (s, [])
  | some .start_recording =>
    if s.recording = false then
      let s1 := reset_recording_state s
      let s2 : Recorder := { s1 with recording := true,
                                     current_chunk_start_time := some now }
      (s2, [Event.recording_started])
    else (s, [])
  | some .stop_recording =>
    if s.recording then finalize_recording now s else (s, [])
  | some .shutdown => ({ s with running := false }, [])
  | some .disconnect =>
    let r := if s.recording then finalize_recording now s else (s, [])
    if reconnect_ok then r else ({ r.1 with running := false }, r.2)
  | some .unknown => (s, [])

/-- One polled input of the main command loop: the moment of the poll,
the poll's parsed command (if any), and whether a reconnect within the
timeout would succeed (consulted only for `disconnect`). -/
structure LoopInput where
  now : ℚ
  cmd : Option Command
  reconnect_ok : Bool
  deriving Repr, DecidableEq

/-- `_run_command_loop` (lines 626-663) driven by a finite list of
polled inputs: each iteration first checks `running` (the `while`
condition), then dispatches the polled command. -/
def run_loop (inputs : List LoopInput) (s : Recorder) : Recorder × List Event :=
  match inputs with
  | [] => (s, [])
  | i :: rest =>
    if s.running = false then (s, [])
    else
      let r := handle_command i.now i.reconnect_ok i.cmd s
      let r2 := run_loop rest r.1
      (r2.1, r.2 ++ r2.2)

/-- `TCPServer.receive_command`'s possible socket outcomes: a timeout
(no data), a connection-reset exception, or received bytes (decoded
UTF-8 text). -/
inductive PollResult where
  | timeout : PollResult
  | connreset : PollResult
  | data (s : String) : PollResult
  deriving Repr, DecidableEq

/-- Python's `str.strip()` (applied to each received line, line 100):
drop whitespace from both ends.  (`String.trim` is not used here only
because its `Substring`-based implementation does not reduce in the
kernel; this is the same function.) -/
def strip (s : String) : String :=
  ⟨((s.data.dropWhile Char.isWhitespace).reverse.dropWhile
      Char.isWhitespace).reverse⟩

/-- The line loop of `receive_command` (lines 99-105): return the
first stripped non-empty line that JSON-parses, skipping parse
failures; `parse` models `json.loads` composed with command
extraction. -/
def first_json_command (parse : String → Option Command) :
    List String → Option Command
  | [] => none
  | l :: rest =>
    if (strip l).isEmpty then first_json_command parse rest
    else
      match parse (strip l) with
      | some c => some c
      | none => first_json_command parse rest

/-- `TCPServer.receive_command` (lines 83-113): `None` on timeout, a
synthetic `disconnect` on a connection reset or a zero-length read,
otherwise the first parseable newline-delimited JSON line. -/
def receive_command (parse : String → Option Command) :
    PollResult → Option Command
  | .timeout => none
  | .connreset => some Command.disconnect
  | .data s =>
    if s.isEmpty then some Command.disconnect
    else first_json_command parse (s.splitOn "\n")

/-- Event classifiers used to count emitted events. -/
def isChunkReady : Event → Bool
  | .chunk_ready _ _ => true
  | _ => false

def isRecordingStopped : Event → Bool
  | .recording_stopped => true
  | _ => false

def isCompleteFile : Event → Bool
  | .complete_file _ => true
  | _ => false

def isSilenceWarning : Event → Bool
  | .silence_warning => true
  | _ => false

def isError : Event → Bool
  | .error _ => true
  | _ => false

/-- The chunk-conservation invariant: every ingested frame is either
in an already-persisted chunk or in the current chunk buffer. -/
def chunksConserve (s : Recorder) : Prop :=
  s.saved_chunks.flatten ++ s.current_chunk_audio.flatten = s.all_audio.flatten

/-- Modelled from the spec: the per-frame ingestion algorithm of spec
§4.4, whose step 1 appends the frame to the chunk buffer and the
full-session buffer BEFORE step 2 evaluates the SilenceGuard (steps
3-4 as in the source).  Used to compare the spec's claimed step order
with the source's `audio_callback`, which evaluates the guard first
(line 509) and appends afterwards (lines 512-514). -/
def spec_ordered_callback (now : ℚ) (frame : Frame) (vr : VadResult)
    (s : Recorder) : Recorder × List Event :=
  if s.recording = false then (s, [])
  else
    let s1 := append_frame frame s
    let g := check_perfect_silence now frame s1
    let m := check_max_duration now g.1
    if m.2.2 then (m.1, g.2 ++ m.2.1)
    else
      match get_recent_audio m.1 with
      | none => (m.1, g.2 ++ m.2.1)
      | some _ =>
        let v := process_vad now vr m.1
        let b := check_silence_boundary now v.1
        (b.1, g.2 ++ m.2.1 ++ v.2 ++ b.2.1)

/-! ## Concrete states and traces used by witnesses and counterexamples -/

/-- A silent frame of 52 samples (the VAD window of 512 samples is
reached once ten such frames are buffered). -/
def z52 : Frame := List.replicate 52 0

/-- A demonstration command parser standing for `json.loads` plus
command extraction: recognizes exactly the line `"A"`. -/
def parseDemo : String → Option Command :=
  fun l => if l = "A" then some Command.stop_recording else none

/-- C6 trace: defaults, `start_recording` at t=0, one loud one-sample
frame at t=1/2, `stop_recording` (finalize) at t=1. -/
def c6final : Recorder :=
  (finalize_recording 1
    (audio_callback (1/2) [1] (VadResult.ok 1)
      (handle_command 0 true (some Command.start_recording)
        (initRecorder 5 10 120)).1).1).1

/-- C7 failing configuration: `silence_threshold=1.0`,
`min_chunk_duration=2.3`, `max_chunk_duration=30` (the CLI accepts
arbitrary values for these). -/
def c7start : Recorder :=
  (handle_command 0 true (some Command.start_recording)
    (initRecorder 1 (23/10) 30)).1

/-- C7 failing input: all-zero frames, VAD classifying silence
(probability 0) on every window.  The mic-off guard's silence clock
starts at the first frame (t=0.3) and fires at t=2.3; at that same
frame the VAD silence boundary (timer running since t=1.3, chunk
elapsed 2.3 ≥ 2.3) also triggers — after the guard already finalized
the session. -/
def c7steps : List (ℚ × Frame × VadResult) :=
  [(3/10, z52, VadResult.ok 0), (4/10, z52, VadResult.ok 0),
   (5/10, z52, VadResult.ok 0), (6/10, z52, VadResult.ok 0),
   (7/10, z52, VadResult.ok 0), (8/10, z52, VadResult.ok 0),
   (9/10, z52, VadResult.ok 0), (1, z52, VadResult.ok 0),
   (11/10, z52, VadResult.ok 0), (12/10, z52, VadResult.ok 0),
   (13/10, z52, VadResult.ok 0), (3/2, z52, VadResult.ok 0),
   (23/10, z52, VadResult.ok 0)]

/-- The C7 run: session start, then the thirteen silent frames. -/
def c7run : Recorder × List Event := runFrames c7steps c7start

/-- C8 trace: defaults of the CLI (`silence_threshold=2.0`,
`min_chunk_duration=3.0`, `max_chunk_duration=600`), session started
at t=0, one silent one-sample frame ingested at t=0 (arming the
guard's silence clock). -/
def c8pre : Recorder :=
  (audio_callback 0 [0] (VadResult.ok 0)
    (handle_command 0 true (some Command.start_recording)
      (initRecorder 2 3 600)).1).1

/-- C8 witness state: guard armed (silence clock at t=0, not yet
resolved), `max_chunk_duration = 1` already exceeded at t=2. -/
def c8wstate : Recorder :=
  { initRecorder 2 3 1 with
      recording := true
      current_chunk_start_time := some 0
      perfect_silence_start_time := some 0
      current_chunk_audio := [[0]]
      all_audio := [[0]] }

/-- C4 witness state: a mid-session recording (guard already
resolved) with nine silent frames buffered, chunk clock at t=0. -/
def c4state : Recorder :=
  { initRecorder 2 3 600 with
      recording := true
      startup_silence_check_done := true
      current_chunk_start_time := some 0
      current_chunk_audio := List.replicate 9 z52
      all_audio := List.replicate 9 z52 }

/-- C2 witness state: silence observed since t=0 (timer set), chunk
clock at t=0, `min_chunk_duration=10` not yet reached. -/
def c2state : Recorder :=
  { initRecorder 1 10 600 with
      recording := true
      startup_silence_check_done := true
      current_chunk_start_time := some 0
      silence_start_time := some 0
      consecutive_silence_count := 2
      current_chunk_audio := [[1/2]]
      all_audio := [[1/2]] }

/-- C1 witness state: a mid-session recording whose chunk clock
started at t=0 with `max_chunk_duration=1`. -/
def c1state : Recorder :=
  { initRecorder 5 10 1 with
      recording := true
      startup_silence_check_done := true
      current_chunk_start_time := some 0
      current_chunk_audio := [[1/2]]
      all_audio := [[1/2]] }

/-- C5 witness state: a recording session holding one frame. -/
def c5state : Recorder :=
  { initRecorder 5 10 120 with
      recording := true
      current_chunk_start_time := some 0
      current_chunk_audio := [[1/2]]
      all_audio := [[1/2]] }

/-! ## Helper lemmas -/

theorem save_chunk_of_ne (now : ℚ) (s : Recorder)
    (h : s.current_chunk_audio ≠ []) :
    save_chunk now s =
      ({ s with chunk_num := s.chunk_num + 1,
                saved_chunks := s.saved_chunks ++ [s.current_chunk_audio.flatten],
                current_chunk_audio := [],
                current_chunk_start_time := some now },
       some (s.chunk_num + 1)) := by
  simp [save_chunk, h]

theorem finalize_of_not_recording (now : ℚ) (s : Recorder)
    (h : s.recording = false) : finalize_recording now s = (s, []) := by
  simp [finalize_recording, h]

theorem finalize_recording_not_recording (now : ℚ) (s : Recorder)
    (h : s.recording = true) :
    (finalize_recording now s).1.recording = false := by
  by_cases ha : s.all_audio = [] <;>
  by_cases hm : s.mic_off = true <;>
  by_cases hb : s.current_chunk_audio = [] <;>
    simp [finalize_recording, h, save_complete_recording, save_chunk,
      emit_chunk_ready, ha, hm, hb]

/-- Second `_finalize_recording` in a row is a no-op plus the event
counts of the first call; shares the case analysis used by C5. -/
theorem finalize_event_counts (now : ℚ) (s : Recorder)
    (h : s.recording = true) :
    (finalize_recording now s).2.countP isRecordingStopped = 1 ∧
    (finalize_recording now s).2.countP isCompleteFile ≤ 1 ∧
    (finalize_recording now s).2.countP isChunkReady ≤ 1 ∧
    (finalize_recording now s).1.chunk_num ≤ s.chunk_num + 1 := by
  by_cases ha : s.all_audio = [] <;>
  by_cases hm : s.mic_off = true <;>
  by_cases hb : s.current_chunk_audio = [] <;>
    simp [finalize_recording, h, save_complete_recording, save_chunk,
      emit_chunk_ready, ha, hm, hb, isRecordingStopped, isCompleteFile,
      isChunkReady]

theorem fjc_first (parse : String → Option Command) (pre suf : List String)
    (x : String) (c : Command)
    (hpre : ∀ l ∈ pre, (strip l).isEmpty = true ∨ parse (strip l) = none)
    (hx : (strip x).isEmpty = false) (hc : parse (strip x) = some c) :
    first_json_command parse (pre ++ x :: suf) = some c := by
  induction pre with
  | nil => simp [first_json_command, hx, hc]
  | cons a t ih =>
    have ht : ∀ l ∈ t, (strip l).isEmpty = true ∨ parse (strip l) = none :=
      fun l hl => hpre l (List.mem_cons_of_mem _ hl)
    rcases hpre a (List.mem_cons_self a t) with h1 | h1
    · simpa [first_json_command, h1] using ih ht
    · by_cases he : (strip a).isEmpty = true
      · simpa [first_json_command, he] using ih ht
      · simpa [first_json_command, he, h1] using ih ht

theorem fjc_none (parse : String → Option Command) (lines : List String)
    (h : ∀ l ∈ lines, (strip l).isEmpty = true ∨ parse (strip l) = none) :
    first_json_command parse lines = none := by
  induction lines with
  | nil => simp [first_json_command]
  | cons a t ih =>
    have ht : ∀ l ∈ t, (strip l).isEmpty = true ∨ parse (strip l) = none :=
      fun l hl => h l (List.mem_cons_of_mem _ hl)
    rcases h a (List.mem_cons_self a t) with h1 | h1
    · simpa [first_json_command, h1] using ih ht
    · by_cases he : (strip a).isEmpty = true
      · simpa [first_json_command, he] using ih ht
      · simpa [first_json_command, he, h1] using ih ht

theorem runVad_append (a b : List (ℚ × VadResult)) (s : Recorder) :
    runVad (a ++ b) s = runVad b (runVad a s) := by
  induction a generalizing s with
  | nil => rfl
  | cons p t ih => cases p with | mk now vr => simp [runVad, ih]

theorem process_vad_speech (now : ℚ) (vr : VadResult) (s : Recorder)
    (h : (detect_voice_activity vr).1 = true) :
    (process_vad now vr s).1.silence_start_time = none ∧
    (process_vad now vr s).1.consecutive_silence_count = 0 := by
  simp [process_vad, h]

theorem runVad_silence_run (sils : List (ℚ × VadResult)) (s : Recorder)
    (ht : s.silence_start_time = none)
    (hall : ∀ p ∈ sils, (detect_voice_activity p.2).1 = false)
    (hlen : s.consecutive_silence_count + sils.length <
      VAD_CONSECUTIVE_SILENCE_REQUIRED) :
    (runVad sils s).silence_start_time = none ∧
    (runVad sils s).consecutive_silence_count =
      s.consecutive_silence_count + sils.length := by
  induction sils generalizing s with
  | nil => simpa [runVad] using ht
  | cons p t ih =>
    cases p with | mk now vr =>
    have hv : (detect_voice_activity vr).1 = false :=
      hall _ (List.mem_cons_self _ t)
    have hN : ¬ (VAD_CONSECUTIVE_SILENCE_REQUIRED ≤
        s.consecutive_silence_count + 1) := by
      simp only [List.length_cons] at hlen; omega
    have hstep : (process_vad now vr s).1 =
        { s with consecutive_silence_count :=
            s.consecutive_silence_count + 1 } := by
      simp [process_vad, hv, hN]
    have ht' : ∀ l ∈ t, (detect_voice_activity l.2).1 = false :=
      fun l hl => hall l (List.mem_cons_of_mem _ hl)
    have := ih ({ s with consecutive_silence_count :=
        s.consecutive_silence_count + 1 }) ht ht'
      (by simp only [List.length_cons] at hlen; simpa using by omega)
    simp only [runVad, hstep]
    exact ⟨this.1, by rw [this.2]; simp [List.length_cons]; omega⟩

/-- The mic-off guard leaves the chunk fields, buffers, silence
tracking and configuration untouched in every branch (a firing guard
only changes `mic_off`, `recording`, `running`,
`startup_silence_check_done` and `perfect_silence_start_time`). -/
theorem cps_fields (now : ℚ) (frame : Frame) (s : Recorder) :
    (check_perfect_silence now frame s).1.current_chunk_audio =
      s.current_chunk_audio ∧
    (check_perfect_silence now frame s).1.all_audio = s.all_audio ∧
    (check_perfect_silence now frame s).1.chunk_num = s.chunk_num ∧
    (check_perfect_silence now frame s).1.saved_chunks = s.saved_chunks ∧
    (check_perfect_silence now frame s).1.current_chunk_start_time =
      s.current_chunk_start_time ∧
    (check_perfect_silence now frame s).1.silence_start_time =
      s.silence_start_time ∧
    (check_perfect_silence now frame s).1.consecutive_silence_count =
      s.consecutive_silence_count ∧
    (check_perfect_silence now frame s).1.silence_threshold =
      s.silence_threshold ∧
    (check_perfect_silence now frame s).1.min_chunk_duration =
      s.min_chunk_duration ∧
    (check_perfect_silence now frame s).1.max_chunk_duration =
      s.max_chunk_duration := by
  by_cases h1 : s.startup_silence_check_done = true
  · simp [check_perfect_silence, h1]
  · by_cases h2 : is_perfect_silence frame = false
    · simp [check_perfect_silence, h1, h2]
    · cases h3 : s.perfect_silence_start_time with
      | none => simp [check_perfect_silence, h1, h2, h3]
      | some t1 =>
        by_cases h4 : PERFECT_SILENCE_DURATION_AT_START ≤ now - t1
        · by_cases h5 : s.recording = true <;>
          by_cases h6 : s.all_audio = [] <;>
            simp [check_perfect_silence, h1, h2, h3, h4, h5, h6,
              finalize_recording, save_complete_recording]
        · simp [check_perfect_silence, h1, h2, h3, h4]

/-- The mic-off guard emits no `chunk_ready` and no `error` event. -/
theorem cps_events (now : ℚ) (frame : Frame) (s : Recorder) :
    (check_perfect_silence now frame s).2.countP isChunkReady = 0 ∧
    (check_perfect_silence now frame s).2.countP isError = 0 := by
  by_cases h1 : s.startup_silence_check_done = true
  · simp [check_perfect_silence, h1]
  · by_cases h2 : is_perfect_silence frame = false
    · simp [check_perfect_silence, h1, h2]
    · cases h3 : s.perfect_silence_start_time with
      | none => simp [check_perfect_silence, h1, h2, h3]
      | some t1 =>
        by_cases h4 : PERFECT_SILENCE_DURATION_AT_START ≤ now - t1
        · by_cases h5 : s.recording = true <;>
          by_cases h6 : s.all_audio = [] <;>
            simp [check_perfect_silence, h1, h2, h3, h4, h5, h6,
              finalize_recording, save_complete_recording,
              isChunkReady, isError]
        · simp [check_perfect_silence, h1, h2, h3, h4]

/-- A resolved guard (`startup_silence_check_done`) is a no-op. -/
theorem cps_of_done (now : ℚ) (frame : Frame) (s : Recorder)
    (h : s.startup_silence_check_done = true) :
    check_perfect_silence now frame s = (s, []) := by
  simp [check_perfect_silence, h]

/-- `_check_max_duration` below the ceiling: no flush, no change. -/
theorem cmd_not_triggered (now : ℚ) (s : Recorder)
    (h : now - chunkStart s < s.max_chunk_duration) :
    check_max_duration now s = (s, [], false) := by
  simp [check_max_duration, not_le.mpr h]

/-- `_check_max_duration` at or above the ceiling on a non-empty
buffer: flush, emit `chunk_ready(is_final=false)`. -/
theorem cmd_triggered (now : ℚ) (s : Recorder)
    (hb : s.current_chunk_audio ≠ [])
    (h : s.max_chunk_duration ≤ now - chunkStart s) :
    check_max_duration now s =
      ({ s with
          chunk_num := s.chunk_num + 1
          saved_chunks := s.saved_chunks ++ [s.current_chunk_audio.flatten]
          current_chunk_audio := []
          current_chunk_start_time := some now },
       [Event.chunk_ready (s.chunk_num + 1) false], true) := by
  simp [check_max_duration, h, save_chunk, hb, emit_chunk_ready]

/-- `_process_vad` on a speech classification (also the fail-open
path): clear the silence timer and the counter. -/
theorem process_vad_of_speech (now : ℚ) (vr : VadResult) (s : Recorder)
    (h : (detect_voice_activity vr).1 = true) :
    process_vad now vr s =
      ({ s with silence_start_time := none, consecutive_silence_count := 0 },
       (detect_voice_activity vr).2) := by
  simp [process_vad, h]

/-- `_process_vad` leaves everything but the silence tracking alone,
and only forwards the classifier's events. -/
theorem process_vad_fields (now : ℚ) (vr : VadResult) (s : Recorder) :
    (process_vad now vr s).1.current_chunk_audio = s.current_chunk_audio ∧
    (process_vad now vr s).1.all_audio = s.all_audio ∧
    (process_vad now vr s).1.chunk_num = s.chunk_num ∧
    (process_vad now vr s).1.saved_chunks = s.saved_chunks ∧
    (process_vad now vr s).1.current_chunk_start_time =
      s.current_chunk_start_time ∧
    (process_vad now vr s).1.silence_threshold = s.silence_threshold ∧
    (process_vad now vr s).1.min_chunk_duration = s.min_chunk_duration ∧
    (process_vad now vr s).1.max_chunk_duration = s.max_chunk_duration ∧
    (process_vad now vr s).1.recording = s.recording ∧
    (process_vad now vr s).1.running = s.running ∧
    (process_vad now vr s).1.mic_off = s.mic_off ∧
    (process_vad now vr s).2 = (detect_voice_activity vr).2 := by
  by_cases hv : (detect_voice_activity vr).1 = true
  · simp [process_vad, hv]
  · by_cases hN : VAD_CONSECUTIVE_SILENCE_REQUIRED ≤
        s.consecutive_silence_count + 1
    · cases ht : s.silence_start_time <;>
        simp [process_vad, hv, hN, ht]
    · simp [process_vad, hv, hN]

/-- Single-field forms of `process_vad_fields`, usable as rewrite
rules whatever shape the state argument takes. -/
theorem process_vad_chunk_num (now : ℚ) (vr : VadResult) (s : Recorder) :
    (process_vad now vr s).1.chunk_num = s.chunk_num :=
  (process_vad_fields now vr s).2.2.1

theorem process_vad_saved (now : ℚ) (vr : VadResult) (s : Recorder) :
    (process_vad now vr s).1.saved_chunks = s.saved_chunks :=
  (process_vad_fields now vr s).2.2.2.1

theorem process_vad_buffer (now : ℚ) (vr : VadResult) (s : Recorder) :
    (process_vad now vr s).1.current_chunk_audio = s.current_chunk_audio :=
  (process_vad_fields now vr s).1

theorem process_vad_events (now : ℚ) (vr : VadResult) (s : Recorder) :
    (process_vad now vr s).2 = (detect_voice_activity vr).2 :=
  (process_vad_fields now vr s).2.2.2.2.2.2.2.2.2.2.2

theorem process_vad_all (now : ℚ) (vr : VadResult) (s : Recorder) :
    (process_vad now vr s).1.all_audio = s.all_audio :=
  (process_vad_fields now vr s).2.1

/-- `_check_silence_boundary` with no silence timer is a no-op. -/
theorem csb_of_none (now : ℚ) (s : Recorder)
    (h : s.silence_start_time = none) :
    check_silence_boundary now s = (s, [], false) := by
  simp [check_silence_boundary, h]

/-- An untriggered max-duration check changes nothing. -/
theorem cmd_state_of_flag_false (now : ℚ) (s : Recorder)
    (h : (check_max_duration now s).2.2 = false) :
    (check_max_duration now s).1 = s ∧ (check_max_duration now s).2.1 = [] := by
  by_cases hc : s.max_chunk_duration ≤ now - chunkStart s
  · by_cases hb : s.current_chunk_audio = [] <;>
      simp_all [check_max_duration, hc, save_chunk, emit_chunk_ready]
  · simp [check_max_duration, hc]

/-- Unfolding of `audio_callback` while recording. -/
theorem audio_callback_recording (now : ℚ) (frame : Frame) (vr : VadResult)
    (s : Recorder) (hrec : s.recording = true) :
    audio_callback now frame vr s =
      (let g := check_perfect_silence now frame s
       let s1 := append_frame frame g.1
       let m := check_max_duration now s1
       if m.2.2 then (m.1, g.2 ++ m.2.1)
       else
         match get_recent_audio m.1 with
         | none => (m.1, g.2 ++ m.2.1)
         | some _ =>
           let v := process_vad now vr m.1
           let b := check_silence_boundary now v.1
           (b.1, g.2 ++ m.2.1 ++ v.2 ++ b.2.1)) := by
  rw [audio_callback, if_neg]
  simp [hrec]

/-! Preservation of the chunk-conservation invariant. -/

theorem conserve_append (frame : Frame) (s : Recorder)
    (h : chunksConserve s) : chunksConserve (append_frame frame s) := by
  unfold chunksConserve at h ⊢
  simp only [append_frame, List.flatten_append, List.flatten_cons,
    List.flatten_nil, List.append_nil]
  rw [← List.append_assoc, h]

theorem conserve_save (now : ℚ) (s : Recorder) (h : chunksConserve s) :
    chunksConserve (save_chunk now s).1 := by
  by_cases hb : s.current_chunk_audio = []
  · simpa [save_chunk, hb] using h
  · unfold chunksConserve at h ⊢
    simp only [save_chunk, hb, if_false]
    simpa [List.flatten_append] using h

theorem conserve_cps (now : ℚ) (frame : Frame) (s : Recorder)
    (h : chunksConserve s) :
    chunksConserve (check_perfect_silence now frame s).1 := by
  unfold chunksConserve at h ⊢
  obtain ⟨hG1, hG2, _, hG4, _⟩ := cps_fields now frame s
  rw [hG1, hG2, hG4]
  exact h

theorem conserve_vad (now : ℚ) (vr : VadResult) (s : Recorder)
    (h : chunksConserve s) : chunksConserve (process_vad now vr s).1 := by
  unfold chunksConserve at h ⊢
  rw [process_vad_saved, process_vad_buffer, process_vad_all]
  exact h

theorem conserve_cmd (now : ℚ) (s : Recorder) (h : chunksConserve s) :
    chunksConserve (check_max_duration now s).1 := by
  by_cases hc : s.max_chunk_duration ≤ now - chunkStart s
  · by_cases hb : s.current_chunk_audio = []
    · simpa [check_max_duration, hc, save_chunk, hb, emit_chunk_ready] using h
    · unfold chunksConserve at h ⊢
      simp only [check_max_duration, hc, if_true, save_chunk, hb, if_false,
        emit_chunk_ready]
      simpa [List.flatten_append] using h
  · simpa [check_max_duration, hc] using h

theorem conserve_csb (now : ℚ) (s : Recorder) (h : chunksConserve s) :
    chunksConserve (check_silence_boundary now s).1 := by
  cases ht : s.silence_start_time with
  | none => simpa [check_silence_boundary, ht] using h
  | some t1 =>
    by_cases h2 : s.silence_threshold ≤ now - t1
    · by_cases h3 : s.min_chunk_duration ≤ now - chunkStart s
      · by_cases hb : s.current_chunk_audio = []
        · simpa [check_silence_boundary, ht, h2, h3, save_chunk, hb,
            emit_chunk_ready, chunksConserve] using h
        · unfold chunksConserve at h ⊢
          simp only [check_silence_boundary, ht, h2, h3, if_true,
            save_chunk, hb, if_false, emit_chunk_ready]
          simpa [List.flatten_append] using h
      · simpa [check_silence_boundary, ht, h2, h3] using h
    · simpa [check_silence_boundary, ht, h2] using h

/-- Every ingestion step preserves the chunk-conservation invariant:
frames never leave the accounting (chunk files + current buffer =
full-session audio). -/
theorem conserve_callback (now : ℚ) (frame : Frame) (vr : VadResult)
    (s : Recorder) (h : chunksConserve s) :
    chunksConserve (audio_callback now frame vr s).1 := by
  by_cases hrec : s.recording = true
  · rw [audio_callback_recording now frame vr s hrec]
    have h1 : chunksConserve
        (append_frame frame (check_perfect_silence now frame s).1) :=
      conserve_append frame _ (conserve_cps now frame s h)
    cases hflag : (check_max_duration now
        (append_frame frame (check_perfect_silence now frame s).1)).2.2 with
    | true =>
      simp only [hflag, if_true]
      exact conserve_cmd now _ h1
    | false =>
      obtain ⟨hst, -⟩ := cmd_state_of_flag_false now
        (append_frame frame (check_perfect_silence now frame s).1) hflag
      simp only [hflag, Bool.false_eq_true, if_false, hst]
      cases hw : get_recent_audio
          (append_frame frame (check_perfect_silence now frame s).1) with
      | none => simpa [hw] using h1
      | some w =>
        simp only [hw]
        exact conserve_csb now _ (conserve_vad now vr _ h1)
  · have hrec' : s.recording = false := by simpa using hrec
    simpa [audio_callback, hrec'] using h

/-- The classifier call emits no `chunk_ready` event. -/
theorem detect_no_ready (vr : VadResult) :
    (detect_voice_activity vr).2.countP isChunkReady = 0 := by
  cases vr <;> simp [detect_voice_activity, isChunkReady]

/-- `_check_silence_boundary` defers while the chunk is younger than
`min_chunk_duration`, whatever the silence timer says. -/
theorem csb_not_min (now : ℚ) (s : Recorder)
    (h : now - chunkStart s < s.min_chunk_duration) :
    check_silence_boundary now s = (s, [], false) := by
  cases ht : s.silence_start_time with
  | none => simp [check_silence_boundary, ht]
  | some t1 =>
    by_cases h2 : s.silence_threshold ≤ now - t1
    · simp [check_silence_boundary, ht, h2, not_le.mpr h]
    · simp [check_silence_boundary, ht, h2]

/-! ## Claim theorems -/

/-- C5: finalization is idempotent — a finalize on a non-Recording
session is a no-op, and two finalizes in a row produce exactly one
`recording_stopped`, at most one `complete_file`, at most one final
`chunk_ready`, and the chunk counter grows by at most one. -/
theorem finalize_idempotent (s : Recorder) (now now2 : ℚ) :
    (s.recording = false → finalize_recording now s = (s, [])) ∧
    (s.recording = true →
      finalize_recording now2 (finalize_recording now s).1 =
        ((finalize_recording now s).1, []) ∧
      (finalize_recording now s).2.countP isRecordingStopped = 1 ∧
      (finalize_recording now s).2.countP isCompleteFile ≤ 1 ∧
      (finalize_recording now s).2.countP isChunkReady ≤ 1 ∧
      (finalize_recording now s).1.chunk_num ≤ s.chunk_num + 1) := by
  refine ⟨fun h => finalize_of_not_recording now s h, fun h => ?_⟩
  have h2 := finalize_event_counts now s h
  exact ⟨finalize_of_not_recording now2 _
      (finalize_recording_not_recording now s h),
    h2.1, h2.2.1, h2.2.2.1, h2.2.2.2⟩

/-- C5 witness: concrete no-op on an Idle state, and the double-call
facts on a one-frame recording session. -/
theorem finalize_idempotent_witness :
    finalize_recording 0 (initRecorder 5 10 120) = (initRecorder 5 10 120, []) ∧
    (finalize_recording 2 (finalize_recording 1 c5state).1 =
        ((finalize_recording 1 c5state).1, []) ∧
      (finalize_recording 1 c5state).2.countP isRecordingStopped = 1 ∧
      (finalize_recording 1 c5state).2.countP isCompleteFile ≤ 1 ∧
      (finalize_recording 1 c5state).2.countP isChunkReady ≤ 1 ∧
      (finalize_recording 1 c5state).1.chunk_num ≤ c5state.chunk_num + 1) :=
  ⟨(finalize_idempotent (initRecorder 5 10 120) 0 0).1 rfl,
   (finalize_idempotent c5state 1 2).2 rfl⟩

/-- C3: the silence timer is started only after at least
`VAD_CONSECUTIVE_SILENCE_REQUIRED` consecutive silence
classifications; any single speech classification resets the counter
to 0 and clears the timer (in particular after any run ending in a
speech classification); and while fewer than the required consecutive
silences have accumulated, the timer stays unset and the counter
counts exactly the silences seen. -/
theorem silence_gating (s s2 s3 : Recorder)
    (ins sils : List (ℚ × VadResult)) (now now2 : ℚ) (vr vr2 : VadResult) :
    ((detect_voice_activity vr).1 = true →
      (runVad (ins ++ [(now, vr)]) s).silence_start_time = none ∧
      (runVad (ins ++ [(now, vr)]) s).consecutive_silence_count = 0) ∧
    (s2.silence_start_time = none →
      (process_vad now2 vr2 s2).1.silence_start_time ≠ none →
      (detect_voice_activity vr2).1 = false ∧
      VAD_CONSECUTIVE_SILENCE_REQUIRED ≤ s2.consecutive_silence_count + 1) ∧
    (s3.silence_start_time = none →
      (∀ p ∈ sils, (detect_voice_activity p.2).1 = false) →
      s3.consecutive_silence_count + sils.length <
        VAD_CONSECUTIVE_SILENCE_REQUIRED →
      (runVad sils s3).silence_start_time = none ∧
      (runVad sils s3).consecutive_silence_count =
        s3.consecutive_silence_count + sils.length) := by
  refine ⟨fun hv => ?_, fun ht hset => ?_, fun ht hall hlen =>
    runVad_silence_run sils s3 ht hall hlen⟩
  · rw [runVad_append]
    simpa [runVad] using process_vad_speech now vr (runVad ins s) hv
  · by_cases hv : (detect_voice_activity vr2).1 = true
    · exact absurd (process_vad_speech now2 vr2 s2 hv).1 hset
    · have hv' : (detect_voice_activity vr2).1 = false := by
        simpa using hv
      by_cases hN : VAD_CONSECUTIVE_SILENCE_REQUIRED ≤
          s2.consecutive_silence_count + 1
      · exact ⟨hv', hN⟩
      · exact absurd (by simp [process_vad, hv', hN, ht]) hset

/-- C3 witness: with the required count 2, one silence then one speech
leaves the timer unset and the counter 0; a lone silence from a clean
state leaves the timer unset with counter 1. -/
theorem silence_gating_witness :
    ((runVad ([((0:ℚ), VadResult.ok 0)] ++ [((1:ℚ), VadResult.ok 1)])
        (initRecorder 2 3 600)).silence_start_time = none ∧
      (runVad ([((0:ℚ), VadResult.ok 0)] ++ [((1:ℚ), VadResult.ok 1)])
        (initRecorder 2 3 600)).consecutive_silence_count = 0) ∧
    ((detect_voice_activity (VadResult.ok 0)).1 = false ∧
      VAD_CONSECUTIVE_SILENCE_REQUIRED ≤
        ({ initRecorder 2 3 600 with consecutive_silence_count := 1 } :
          Recorder).consecutive_silence_count + 1) ∧
    ((runVad [((0:ℚ), VadResult.ok 0)] (initRecorder 2 3 600)).silence_start_time
        = none ∧
      (runVad [((0:ℚ), VadResult.ok 0)]
        (initRecorder 2 3 600)).consecutive_silence_count =
        (initRecorder 2 3 600).consecutive_silence_count + 1) := by
  have h := silence_gating (initRecorder 2 3 600)
    ({ initRecorder 2 3 600 with consecutive_silence_count := 1 })
    (initRecorder 2 3 600) [((0:ℚ), VadResult.ok 0)]
    [((0:ℚ), VadResult.ok 0)] 1 5 (VadResult.ok 1) (VadResult.ok 0)
  exact ⟨h.1 (by decide), h.2.1 rfl (by decide), h.2.2 rfl (by decide) (by decide)⟩

/-- C10: a single inbound poll returns `None` on a timeout, the
synthetic `disconnect` on a connection reset or a zero-length read,
silently discards malformed lines, and returns at most one command
per poll — the first parseable line; later lines are discarded. -/
theorem receive_command_protocol (parse : String → Option Command)
    (str : String) (lines pre suf : List String) (x : String) (c : Command) :
    receive_command parse PollResult.timeout = none ∧
    receive_command parse PollResult.connreset = some Command.disconnect ∧
    receive_command parse (PollResult.data "") = some Command.disconnect ∧
    (str.isEmpty = false →
      receive_command parse (PollResult.data str) =
        first_json_command parse (str.splitOn "\n")) ∧
    ((∀ l ∈ pre, (strip l).isEmpty = true ∨ parse (strip l) = none) →
      (strip x).isEmpty = false → parse (strip x) = some c →
      first_json_command parse (pre ++ x :: suf) = some c) ∧
    ((∀ l ∈ lines, (strip l).isEmpty = true ∨ parse (strip l) = none) →
      first_json_command parse lines = none) := by
  refine ⟨rfl, rfl, rfl, fun h => by simp [receive_command, h],
    fun hpre hx hc => fjc_first parse pre suf x c hpre hx hc,
    fun h => fjc_none parse lines h⟩

/-- C10 witness: the demo parser recognizes only the line `A`; a poll
carrying `bad`, `A`, `B` returns the first parseable command (from
`A`), discarding `B`; all-malformed data returns nothing. -/
theorem receive_command_protocol_witness :
    receive_command parseDemo PollResult.timeout = none ∧
    receive_command parseDemo PollResult.connreset = some Command.disconnect ∧
    receive_command parseDemo (PollResult.data "") = some Command.disconnect ∧
    receive_command parseDemo (PollResult.data "bad\nA\nB") =
      first_json_command parseDemo (("bad\nA\nB").splitOn "\n") ∧
    first_json_command parseDemo (["bad", ""] ++ "A" :: ["B"]) =
      some Command.stop_recording ∧
    first_json_command parseDemo ["bad", "B"] = none := by
  have h := receive_command_protocol parseDemo "bad\nA\nB" ["bad", "B"]
    ["bad", ""] ["B"] "A" Command.stop_recording
  exact ⟨h.1, h.2.1, h.2.2.1, h.2.2.2.1 (by decide),
    h.2.2.2.2.1 (by decide) (by decide) (by decide),
    h.2.2.2.2.2 (by decide)⟩

/-- Core facts about a max-duration flush step (shared helper). -/
theorem callback_max_core (s : Recorder) (now t0 : ℚ) (frame : Frame)
    (vr : VadResult)
    (hrec : s.recording = true)
    (hstart : s.current_chunk_start_time = some t0)
    (hmax : s.max_chunk_duration ≤ now - t0) :
    (audio_callback now frame vr s).1.chunk_num = s.chunk_num + 1 ∧
    (audio_callback now frame vr s).1.current_chunk_audio = [] ∧
    (audio_callback now frame vr s).1.saved_chunks =
      s.saved_chunks ++ [(s.current_chunk_audio ++ [frame]).flatten] ∧
    (audio_callback now frame vr s).2.countP isChunkReady = 1 ∧
    Event.chunk_ready (s.chunk_num + 1) false ∈
      (audio_callback now frame vr s).2 ∧
    (audio_callback now frame vr s).1.silence_start_time =
      s.silence_start_time ∧
    (audio_callback now frame vr s).1.consecutive_silence_count =
      s.consecutive_silence_count ∧
    (∀ vr' : VadResult,
      audio_callback now frame vr' s = audio_callback now frame vr s) := by
  obtain ⟨hG1, hG2, hG3, hG4, hG5, hG6, hG7, hG8, hG9, hG10⟩ :=
    cps_fields now frame s
  obtain ⟨hE1, hE2⟩ := cps_events now frame s
  have hb1 : (append_frame frame
      (check_perfect_silence now frame s).1).current_chunk_audio ≠ [] := by
    simp [append_frame]
  have hcs1 : chunkStart (append_frame frame
      (check_perfect_silence now frame s).1) = t0 := by
    simp [chunkStart, append_frame, hG5, hstart]
  have hmx1 : (append_frame frame
      (check_perfect_silence now frame s).1).max_chunk_duration =
      s.max_chunk_duration := by
    simp [append_frame, hG10]
  have hm := cmd_triggered now
    (append_frame frame (check_perfect_silence now frame s).1) hb1
    (by rw [hcs1, hmx1]; exact hmax)
  have key : ∀ vr'' : VadResult, audio_callback now frame vr'' s =
      ((check_max_duration now
          (append_frame frame (check_perfect_silence now frame s).1)).1,
        (check_perfect_silence now frame s).2 ++
          (check_max_duration now
            (append_frame frame (check_perfect_silence now frame s).1)).2.1) := by
    intro vr''
    rw [audio_callback_recording now frame vr'' s hrec]
    simp [hm]
  rw [key vr, hm]
  refine ⟨by simp [append_frame, hG3], by simp, ?_, ?_, ?_,
    by simp [append_frame, hG6], by simp [append_frame, hG7],
    fun vr' => (key vr').trans (by rw [hm])⟩
  · simp [append_frame, hG1, hG4]
  · simp [List.countP_append, hE1, isChunkReady]
  · simp [append_frame, hG3]

/-- C1: on any frame ingested while recording whose chunk has reached
`max_chunk_duration`, the chunk is flushed on that very frame, the
counter increments by exactly 1, `chunk_ready(is_final=false)` is
emitted, the VAD silence state is untouched, and the whole step is
independent of the classifier (the max-duration check precedes and
short-circuits the VAD evaluation). -/
theorem max_duration_flush (s : Recorder) (now t0 : ℚ) (frame : Frame)
    (vr : VadResult)
    (hrec : s.recording = true)
    (hstart : s.current_chunk_start_time = some t0)
    (hmax : s.max_chunk_duration ≤ now - t0) :
    (audio_callback now frame vr s).1.chunk_num = s.chunk_num + 1 ∧
    (audio_callback now frame vr s).1.current_chunk_audio = [] ∧
    (audio_callback now frame vr s).1.saved_chunks =
      s.saved_chunks ++ [(s.current_chunk_audio ++ [frame]).flatten] ∧
    (audio_callback now frame vr s).2.countP isChunkReady = 1 ∧
    Event.chunk_ready (s.chunk_num + 1) false ∈
      (audio_callback now frame vr s).2 ∧
    (audio_callback now frame vr s).1.silence_start_time =
      s.silence_start_time ∧
    (audio_callback now frame vr s).1.consecutive_silence_count =
      s.consecutive_silence_count ∧
    (∀ vr' : VadResult,
      audio_callback now frame vr' s = audio_callback now frame vr s) :=
  callback_max_core s now t0 frame vr hrec hstart hmax

/-- C1 witness: a one-frame chunk whose clock started at t=0 with
`max_chunk_duration = 1`, ingesting a frame at t=2. -/
theorem max_duration_flush_witness :
    (audio_callback 2 [1] (VadResult.ok 0) c1state).1.chunk_num =
      c1state.chunk_num + 1 ∧
    (audio_callback 2 [1] (VadResult.ok 0) c1state).1.current_chunk_audio = [] ∧
    (audio_callback 2 [1] (VadResult.ok 0) c1state).1.saved_chunks =
      c1state.saved_chunks ++
        [(c1state.current_chunk_audio ++ [[1]]).flatten] ∧
    (audio_callback 2 [1] (VadResult.ok 0) c1state).2.countP isChunkReady = 1 ∧
    Event.chunk_ready (c1state.chunk_num + 1) false ∈
      (audio_callback 2 [1] (VadResult.ok 0) c1state).2 ∧
    (audio_callback 2 [1] (VadResult.ok 0) c1state).1.silence_start_time =
      c1state.silence_start_time ∧
    (audio_callback 2 [1] (VadResult.ok 0) c1state).1.consecutive_silence_count =
      c1state.consecutive_silence_count ∧
    (∀ vr' : VadResult, audio_callback 2 [1] vr' c1state =
      audio_callback 2 [1] (VadResult.ok 0) c1state) :=
  max_duration_flush c1state 2 0 [1] (VadResult.ok 0) rfl rfl (by decide)

/-- C2: a VAD-based (silence-triggered) flush never fires while the
chunk is younger than `min_chunk_duration`: the boundary check is a
no-op however long silence has lasted, and a frame ingested in that
situation (below the max ceiling) only accumulates — no chunk is
saved, no `chunk_ready` is emitted, the counter is unchanged. -/
theorem min_duration_defers_flush (s : Recorder) (now t0 : ℚ) (frame : Frame)
    (vr : VadResult)
    (hstart : s.current_chunk_start_time = some t0)
    (hmin : now - t0 < s.min_chunk_duration) :
    check_silence_boundary now s = (s, [], false) ∧
    (s.recording = true → now - t0 < s.max_chunk_duration →
      (audio_callback now frame vr s).1.chunk_num = s.chunk_num ∧
      (audio_callback now frame vr s).1.saved_chunks = s.saved_chunks ∧
      (audio_callback now frame vr s).1.current_chunk_audio =
        s.current_chunk_audio ++ [frame] ∧
      (audio_callback now frame vr s).2.countP isChunkReady = 0) := by
  have hcs : chunkStart s = t0 := by simp [chunkStart, hstart]
  refine ⟨csb_not_min now s (by rw [hcs]; exact hmin), fun hrec hmax => ?_⟩
  obtain ⟨hG1, hG2, hG3, hG4, hG5, hG6, hG7, hG8, hG9, hG10⟩ :=
    cps_fields now frame s
  obtain ⟨hE1, hE2⟩ := cps_events now frame s
  have hcs1 : chunkStart (append_frame frame
      (check_perfect_silence now frame s).1) = t0 := by
    simp [chunkStart, append_frame, hG5, hstart]
  have hmx1 : (append_frame frame
      (check_perfect_silence now frame s).1).max_chunk_duration =
      s.max_chunk_duration := by
    simp [append_frame, hG10]
  have hm := cmd_not_triggered now
    (append_frame frame (check_perfect_silence now frame s).1)
    (by rw [hcs1, hmx1]; exact hmax)
  obtain ⟨hV1, hV2, hV3, hV4, hV5, hV6, hV7, hV8, hV9, hV10, hV11, hV12⟩ :=
    process_vad_fields now vr
      (append_frame frame (check_perfect_silence now frame s).1)
  have hv1start : (process_vad now vr (append_frame frame
      (check_perfect_silence now frame s).1)).1.current_chunk_start_time =
      some t0 := by
    rw [hV5]; simp [append_frame, hG5, hstart]
  have hv1min : (process_vad now vr (append_frame frame
      (check_perfect_silence now frame s).1)).1.min_chunk_duration =
      s.min_chunk_duration := by
    rw [hV7]; simp [append_frame, hG9]
  have hb := csb_not_min now (process_vad now vr (append_frame frame
      (check_perfect_silence now frame s).1)).1
    (by simp only [chunkStart, hv1start, Option.getD_some, hv1min]; exact hmin)
  rw [audio_callback_recording now frame vr s hrec]
  simp only [hm, Bool.false_eq_true, if_false]
  cases hw : get_recent_audio
      (append_frame frame (check_perfect_silence now frame s).1) with
  | none =>
    simp only [hw]
    refine ⟨by simp [append_frame, hG3], by simp [append_frame, hG4],
      by simp [append_frame, hG1], ?_⟩
    simp [List.countP_append, hE1]
  | some w =>
    simp only [hw, hb]
    refine ⟨by rw [process_vad_chunk_num]; simp [append_frame, hG3],
      by rw [process_vad_saved]; simp [append_frame, hG4],
      by rw [process_vad_buffer]; simp [append_frame, hG1], ?_⟩
    simp [List.countP_append, hE1, process_vad_events, detect_no_ready]

/-- C2 witness: silence observed since session start (timer at 0,
threshold 1 exceeded at t=5) but `min_chunk_duration = 10` not yet
reached: the boundary defers and the frame only accumulates. -/
theorem min_duration_defers_flush_witness :
    check_silence_boundary 5 c2state = (c2state, [], false) ∧
    ((audio_callback 5 [1] (VadResult.ok 0) c2state).1.chunk_num =
        c2state.chunk_num ∧
      (audio_callback 5 [1] (VadResult.ok 0) c2state).1.saved_chunks =
        c2state.saved_chunks ∧
      (audio_callback 5 [1] (VadResult.ok 0) c2state).1.current_chunk_audio =
        c2state.current_chunk_audio ++ [[1]] ∧
      (audio_callback 5 [1] (VadResult.ok 0) c2state).2.countP isChunkReady = 0) :=
  ⟨(min_duration_defers_flush c2state 5 0 [1] (VadResult.ok 0) rfl
      (by decide)).1,
   (min_duration_defers_flush c2state 5 0 [1] (VadResult.ok 0) rfl
      (by decide)).2 rfl (by decide)⟩

/-- C4: a failing classifier is fail-open — exactly one error event is
emitted for the failing window, the window counts as speech (the
silence timer is cleared, never set, so no silence is registered), the
frame still lands in both buffers and the session keeps recording and
running; every ingestion step preserves chunk conservation; and a
finalization without the mic-off flag flushes the remaining buffer so
the persisted chunks hold exactly the session's audio (no frame is
discarded). -/
theorem vad_fail_open (s : Recorder) (now t0 : ℚ) (frame : Frame)
    (m : String) (vr : VadResult)
    (hrec : s.recording = true)
    (hdone : s.startup_silence_check_done = true)
    (hstart : s.current_chunk_start_time = some t0)
    (hmax : now - t0 < s.max_chunk_duration)
    (hwin : get_recent_audio (append_frame frame s) ≠ none) :
    ((audio_callback now frame (VadResult.err m) s).2.countP isError = 1 ∧
      (audio_callback now frame (VadResult.err m) s).1.silence_start_time =
        none ∧
      (audio_callback now frame
        (VadResult.err m) s).1.consecutive_silence_count = 0 ∧
      (audio_callback now frame (VadResult.err m) s).1.current_chunk_audio =
        s.current_chunk_audio ++ [frame] ∧
      (audio_callback now frame (VadResult.err m) s).1.all_audio =
        s.all_audio ++ [frame] ∧
      (audio_callback now frame (VadResult.err m) s).1.recording = true ∧
      (audio_callback now frame (VadResult.err m) s).1.running = s.running) ∧
    (chunksConserve s → chunksConserve (audio_callback now frame vr s).1) ∧
    (chunksConserve s → s.mic_off = false →
      (finalize_recording now s).1.current_chunk_audio = [] ∧
      (finalize_recording now s).1.saved_chunks.flatten =
        (finalize_recording now s).1.all_audio.flatten) := by
  refine ⟨?_, fun hc => conserve_callback now frame vr s hc,
    fun hc hmic => ?_⟩
  · have hdet : (detect_voice_activity (VadResult.err m)).1 = true := by
      simp [detect_voice_activity]
    obtain ⟨w, hw⟩ := Option.ne_none_iff_exists'.mp hwin
    have hm' := cmd_not_triggered now (append_frame frame s)
      (by simp only [chunkStart, append_frame]
          simp [hstart]
          exact hmax)
    have hv := process_vad_of_speech now (VadResult.err m)
      (append_frame frame s) hdet
    rw [audio_callback_recording now frame (VadResult.err m) s hrec,
      cps_of_done now frame s hdone]
    simp only [hm', Bool.false_eq_true, if_false, hw, hv]
    rw [csb_of_none now _ (by simp)]
    simp [append_frame, isError, detect_voice_activity, hrec]
  · by_cases hb : s.current_chunk_audio = []
    · have hfin : (finalize_recording now s).1 =
          { s with recording := false } := by
        by_cases ha : s.all_audio = [] <;>
          simp [finalize_recording, hrec, save_complete_recording, ha,
            hmic, hb]
      rw [hfin]
      refine ⟨by simpa using hb, ?_⟩
      unfold chunksConserve at hc
      simpa [hb] using hc
    · have hfin : (finalize_recording now s).1 =
          { s with recording := false
                   chunk_num := s.chunk_num + 1
                   saved_chunks :=
                     s.saved_chunks ++ [s.current_chunk_audio.flatten]
                   current_chunk_audio := []
                   current_chunk_start_time := some now } := by
        by_cases ha : s.all_audio = [] <;>
          simp [finalize_recording, hrec, save_complete_recording, ha,
            hmic, hb, save_chunk, emit_chunk_ready]
      rw [hfin]
      refine ⟨rfl, ?_⟩
      unfold chunksConserve at hc
      simpa [List.flatten_append] using hc

set_option maxRecDepth 4000 in
/-- C4 witness: a mid-session state with nine buffered frames,
ingesting a tenth 52-sample frame (window available) at t=1 with the
classifier raising; conservation and finalization at the same state. -/
theorem vad_fail_open_witness :
    ((audio_callback 1 z52 (VadResult.err "boom") c4state).2.countP isError
        = 1 ∧
      (audio_callback 1 z52
        (VadResult.err "boom") c4state).1.silence_start_time = none ∧
      (audio_callback 1 z52
        (VadResult.err "boom") c4state).1.consecutive_silence_count = 0 ∧
      (audio_callback 1 z52
        (VadResult.err "boom") c4state).1.current_chunk_audio =
        c4state.current_chunk_audio ++ [z52] ∧
      (audio_callback 1 z52 (VadResult.err "boom") c4state).1.all_audio =
        c4state.all_audio ++ [z52] ∧
      (audio_callback 1 z52 (VadResult.err "boom") c4state).1.recording =
        true ∧
      (audio_callback 1 z52 (VadResult.err "boom") c4state).1.running =
        c4state.running) ∧
    chunksConserve (audio_callback 1 z52 (VadResult.ok 0) c4state).1 ∧
    ((finalize_recording 1 c4state).1.current_chunk_audio = [] ∧
      (finalize_recording 1 c4state).1.saved_chunks.flatten =
        (finalize_recording 1 c4state).1.all_audio.flatten) := by
  have h := vad_fail_open c4state 1 0 z52 "boom" (VadResult.ok 0)
    rfl rfl rfl (by decide) (by decide)
  exact ⟨h.1, h.2.1 rfl, h.2.2 rfl rfl⟩

/-- The full-session buffer of `_check_max_duration` is untouched. -/
theorem cmd_all (now : ℚ) (s : Recorder) :
    (check_max_duration now s).1.all_audio = s.all_audio := by
  by_cases hc : s.max_chunk_duration ≤ now - chunkStart s
  · by_cases hb : s.current_chunk_audio = [] <;>
      simp [check_max_duration, hc, save_chunk, hb, emit_chunk_ready]
  · simp [check_max_duration, hc]

/-- The full-session buffer of `_check_silence_boundary` is untouched. -/
theorem csb_all (now : ℚ) (s : Recorder) :
    (check_silence_boundary now s).1.all_audio = s.all_audio := by
  cases ht : s.silence_start_time with
  | none => simp [check_silence_boundary, ht]
  | some t1 =>
    by_cases h2 : s.silence_threshold ≤ now - t1
    · by_cases h3 : s.min_chunk_duration ≤ now - chunkStart s
      · by_cases hb : s.current_chunk_audio = [] <;>
          simp [check_silence_boundary, ht, h2, h3, save_chunk, hb,
            emit_chunk_ready]
      · simp [check_silence_boundary, ht, h2, h3]
    · simp [check_silence_boundary, ht, h2]

/-- Each recorded frame is appended to the full-session buffer by the
callback — after the guard ran, so a frame ingested while the guard
fires is appended only after finalization. -/
theorem callback_all_audio (now : ℚ) (frame : Frame) (vr : VadResult)
    (s : Recorder) (hrec : s.recording = true) :
    (audio_callback now frame vr s).1.all_audio = s.all_audio ++ [frame] := by
  rw [audio_callback_recording now frame vr s hrec]
  have happ : (append_frame frame
      (check_perfect_silence now frame s).1).all_audio =
      s.all_audio ++ [frame] := by
    simp [append_frame, (cps_fields now frame s).2.1]
  cases hflag : (check_max_duration now
      (append_frame frame (check_perfect_silence now frame s).1)).2.2 with
  | true => simp only [hflag, if_true]; rw [cmd_all]; exact happ
  | false =>
    simp only [hflag, Bool.false_eq_true, if_false]
    cases hw : get_recent_audio (check_max_duration now
        (append_frame frame (check_perfect_silence now frame s).1)).1 with
    | none => simp only [hw]; rw [cmd_all]; exact happ
    | some w =>
      simp only [hw]
      rw [csb_all, process_vad_all, cmd_all]
      exact happ

/-- Events emitted by the guard stay in the callback's event list. -/
theorem callback_guard_mem (now : ℚ) (frame : Frame) (vr : VadResult)
    (s : Recorder) (hrec : s.recording = true) (e : Event)
    (he : e ∈ (check_perfect_silence now frame s).2) :
    e ∈ (audio_callback now frame vr s).2 := by
  rw [audio_callback_recording now frame vr s hrec]
  cases hflag : (check_max_duration now
      (append_frame frame (check_perfect_silence now frame s).1)).2.2 with
  | true => simp only [hflag, if_true]; exact List.mem_append_left _ he
  | false =>
    simp only [hflag, Bool.false_eq_true, if_false]
    cases hw : get_recent_audio (check_max_duration now
        (append_frame frame (check_perfect_silence now frame s).1)).1 with
    | none => simp only [hw]; exact List.mem_append_left _ he
    | some w =>
      simp only [hw]
      exact List.mem_append_left _
        (List.mem_append_left _ (List.mem_append_left _ he))

/-- The firing mic-off guard: `silence_warning`, `complete_file` with
the session audio captured so far, `recording_stopped`; the state
leaves Recording, sets `mic_off`, clears `running`. -/
theorem cps_fire (now : ℚ) (frame : Frame) (s : Recorder) (t1 : ℚ)
    (h1 : s.startup_silence_check_done = false)
    (h2 : is_perfect_silence frame = true)
    (h3 : s.perfect_silence_start_time = some t1)
    (h4 : PERFECT_SILENCE_DURATION_AT_START ≤ now - t1)
    (hrec : s.recording = true)
    (ha : s.all_audio ≠ []) :
    check_perfect_silence now frame s =
      ({ s with mic_off := true
                recording := false
                running := false
                startup_silence_check_done := true },
       [Event.silence_warning, Event.complete_file s.all_audio.flatten,
        Event.recording_stopped]) := by
  simp [check_perfect_silence, h1, h2, h3, h4, hrec, finalize_recording,
    save_complete_recording, ha]

/-- `_finalize_recording` never changes the running flag. -/
theorem finalize_running (now : ℚ) (s : Recorder) :
    (finalize_recording now s).1.running = s.running := by
  by_cases h : s.recording = true
  · by_cases ha : s.all_audio = [] <;> by_cases hm : s.mic_off = true <;>
    by_cases hb : s.current_chunk_audio = [] <;>
      simp [finalize_recording, h, save_complete_recording, save_chunk,
        emit_chunk_ready, ha, hm, hb]
  · have h' : s.recording = false := by simpa using h
    simp [finalize_of_not_recording now s h']

/-- Dispatching any command other than `shutdown` (and `disconnect`
with a timed-out reconnect) keeps the running flag. -/
theorem handle_command_running (now : ℚ) (rok : Bool) (cmd : Option Command)
    (s : Recorder)
    (hsd : cmd ≠ some Command.shutdown)
    (hdc : cmd = some Command.disconnect → rok = true) :
    (handle_command now rok cmd s).1.running = s.running := by
  cases cmd with
  | none => rfl
  | some c =>
    cases c with
    | start_recording =>
      by_cases h : s.recording = false <;>
        simp [handle_command, h, reset_recording_state]
    | stop_recording =>
      by_cases h : s.recording = true <;>
        simp [handle_command, h, finalize_running]
    | shutdown => exact absurd rfl hsd
    | disconnect =>
      have hr : rok = true := hdc rfl
      by_cases h : s.recording = true <;>
        simp [handle_command, h, hr, finalize_running]
    | unknown => rfl

/-- The command loop keeps running over any input sequence free of
`shutdown` and of reconnect timeouts. -/
theorem run_loop_running (inputs : List LoopInput) (s : Recorder)
    (hr : s.running = true)
    (hsd : ∀ i ∈ inputs, i.cmd ≠ some Command.shutdown)
    (hdc : ∀ i ∈ inputs,
      i.cmd = some Command.disconnect → i.reconnect_ok = true) :
    (run_loop inputs s).1.running = true := by
  induction inputs generalizing s with
  | nil => simpa [run_loop] using hr
  | cons i rest ih =>
    have h1 := handle_command_running i.now i.reconnect_ok i.cmd s
      (hsd i (List.mem_cons_self i rest))
      (hdc i (List.mem_cons_self i rest))
    simp only [run_loop, hr, Bool.true_eq_false, if_false]
    exact ih (handle_command i.now i.reconnect_ok i.cmd s).1
      (h1.trans hr)
      (fun j hj => hsd j (List.mem_cons_of_mem _ hj))
      (fun j hj => hdc j (List.mem_cons_of_mem _ hj))

/-- C6 (amended): the Idle-implies-empty invariant holds at
initialization and at every entry into Recording — `start_recording`
resets the buffers and the chunk counter before recording begins, as
does `_reset_recording_state` itself.  (After finalization the
buffers and counter retain the finished session's values until the
next start, so the invariant does not hold in every Idle state.) -/
theorem idle_entry_invariant (st mn mx : ℚ) (s : Recorder) (now : ℚ)
    (rok : Bool) :
    ((initRecorder st mn mx).recording = false ∧
      (initRecorder st mn mx).current_chunk_audio = [] ∧
      (initRecorder st mn mx).all_audio = [] ∧
      (initRecorder st mn mx).chunk_num = 0) ∧
    (s.recording = false →
      ((handle_command now rok (some Command.start_recording) s).1.recording
          = true ∧
        (handle_command now rok
          (some Command.start_recording) s).1.current_chunk_audio = [] ∧
        (handle_command now rok
          (some Command.start_recording) s).1.all_audio = [] ∧
        (handle_command now rok
          (some Command.start_recording) s).1.chunk_num = 0)) ∧
    ((reset_recording_state s).current_chunk_audio = [] ∧
      (reset_recording_state s).all_audio = [] ∧
      (reset_recording_state s).chunk_num = 0) := by
  refine ⟨by simp [initRecorder], fun h => ?_,
    by simp [reset_recording_state]⟩
  simp [handle_command, h, reset_recording_state]

/-- C6 amended witness. -/
theorem idle_entry_invariant_witness :
    (((initRecorder 2 3 600).recording = false ∧
      (initRecorder 2 3 600).current_chunk_audio = [] ∧
      (initRecorder 2 3 600).all_audio = [] ∧
      (initRecorder 2 3 600).chunk_num = 0)) ∧
    (((handle_command 0 true (some Command.start_recording)
          (initRecorder 5 10 120)).1.recording = true ∧
      (handle_command 0 true (some Command.start_recording)
        (initRecorder 5 10 120)).1.current_chunk_audio = [] ∧
      (handle_command 0 true (some Command.start_recording)
        (initRecorder 5 10 120)).1.all_audio = [] ∧
      (handle_command 0 true (some Command.start_recording)
        (initRecorder 5 10 120)).1.chunk_num = 0)) ∧
    ((reset_recording_state (initRecorder 5 10 120)).current_chunk_audio
        = [] ∧
      (reset_recording_state (initRecorder 5 10 120)).all_audio = [] ∧
      (reset_recording_state (initRecorder 5 10 120)).chunk_num = 0) := by
  have h := idle_entry_invariant 2 3 600 (initRecorder 5 10 120) 0 true
  exact ⟨h.1, h.2.1 rfl, h.2.2⟩

/-- C6 counterexample: after `start_recording` (t=0), one loud frame
(t=1/2) and `stop_recording` (t=1), the session is Idle
(`recording = false`) yet the full-session buffer is non-empty and
the chunk counter is 1 — the claimed Idle invariant fails. -/
theorem idle_invariant_fails_after_stop :
    ¬ (c6final.recording = false →
        c6final.current_chunk_audio = [] ∧ c6final.all_audio = [] ∧
        c6final.chunk_num = 0) := by
  decide

set_option maxRecDepth 4000 in
/-- C7, the code evaluated at the failing input: with
`silence_threshold = 1`, `min_chunk_duration = 2.3` and all-silent
frames classified as silence, the mic-off guard fires at t=2.3 —
exactly one `silence_warning`, one `complete_file`, one
`recording_stopped` — and on that very frame the VAD boundary still
flushes the trailing chunk after the session was finalized: one
`chunk_ready` is emitted and the chunk is persisted, where the claim
(and the spec) require the trailing chunk to be discarded with zero
`chunk_ready` events. -/
theorem mic_off_trailing_chunk_persisted :
    c7run.1.mic_off = true ∧
    c7run.2.countP isSilenceWarning = 1 ∧
    c7run.2.countP isCompleteFile = 1 ∧
    c7run.2.countP isRecordingStopped = 1 ∧
    c7run.2.countP isChunkReady = 1 ∧
    c7run.1.saved_chunks.length = 1 := by
  decide

/-- C8 counterexample: at a reachable state (guard's silence clock
armed by a silent frame at t=0), a silent frame at t=2 makes the
source callback and the spec-ordered callback disagree — the source
evaluates the guard before appending, so its `complete_file` excludes
the firing frame. -/
theorem ingestion_order_differs_from_spec :
    audio_callback 2 [0] (VadResult.ok 0) c8pre ≠
      spec_ordered_callback 2 [0] (VadResult.ok 0) c8pre := by
  decide

/-- C8 (amended): the per-frame ingestion order of the source is:
SilenceGuard first, then append to the chunk and full-session buffers,
then the max-duration flush, then the VAD boundary.  Observables: a
firing guard emits a `complete_file` that excludes the frame being
ingested, which is appended afterwards; a max-duration flush persists
a chunk that does include the current frame and short-circuits the
VAD evaluation (the step is classifier-independent). -/
theorem guard_first_ingestion_order (s : Recorder) (now t0 t1 : ℚ)
    (frame : Frame) (vr : VadResult)
    (hrec : s.recording = true)
    (hstart : s.current_chunk_start_time = some t0) :
    (s.startup_silence_check_done = false →
      is_perfect_silence frame = true →
      s.perfect_silence_start_time = some t1 →
      PERFECT_SILENCE_DURATION_AT_START ≤ now - t1 →
      s.all_audio ≠ [] →
      Event.complete_file s.all_audio.flatten ∈
        (audio_callback now frame vr s).2 ∧
      (audio_callback now frame vr s).1.all_audio =
        s.all_audio ++ [frame]) ∧
    (s.max_chunk_duration ≤ now - t0 →
      (audio_callback now frame vr s).1.saved_chunks =
        s.saved_chunks ++ [(s.current_chunk_audio ++ [frame]).flatten] ∧
      ∀ vr' : VadResult,
        audio_callback now frame vr' s = audio_callback now frame vr s) := by
  constructor
  · intro h1 h2 h3 h4 ha
    refine ⟨?_, callback_all_audio now frame vr s hrec⟩
    apply callback_guard_mem now frame vr s hrec
    rw [cps_fire now frame s t1 h1 h2 h3 h4 hrec ha]
    simp
  · intro hmx
    have h := callback_max_core s now t0 frame vr hrec hstart hmx
    exact ⟨h.2.2.1, h.2.2.2.2.2.2.2⟩

/-- C8 amended witness: a state where the guard fires and the max
ceiling is exceeded on the same frame. -/
theorem guard_first_ingestion_order_witness :
    (Event.complete_file c8wstate.all_audio.flatten ∈
        (audio_callback 2 [0] (VadResult.ok 0) c8wstate).2 ∧
      (audio_callback 2 [0] (VadResult.ok 0) c8wstate).1.all_audio =
        c8wstate.all_audio ++ [[0]]) ∧
    ((audio_callback 2 [0] (VadResult.ok 0) c8wstate).1.saved_chunks =
        c8wstate.saved_chunks ++
          [(c8wstate.current_chunk_audio ++ [[0]]).flatten] ∧
      ∀ vr' : VadResult, audio_callback 2 [0] vr' c8wstate =
        audio_callback 2 [0] (VadResult.ok 0) c8wstate) := by
  have h := guard_first_ingestion_order c8wstate 2 0 0 [0]
    (VadResult.ok 0) rfl rfl
  exact ⟨h.1 rfl (by decide) rfl (by decide) (by decide), h.2 (by decide)⟩

/-- C9 counterexample: a `shutdown` command — not a reconnect timeout
after a disconnect — terminates the main command loop. -/
theorem shutdown_terminates_loop :
    ¬ ((run_loop [⟨0, some Command.shutdown, true⟩]
        (initRecorder 2 3 600)).1.running = true) := by
  decide

/-- C9 (amended): the main command loop stops only on a `shutdown`
command or a disconnect whose reconnect wait times out (besides the
externally set running flag, e.g. the mic-off guard); over every
input sequence free of those, the loop keeps running.  A timed-out
reconnect after a disconnect does stop it. -/
theorem loop_termination_conditions (inputs : List LoopInput)
    (s s2 : Recorder) (now : ℚ) :
    (s.running = true →
      (∀ i ∈ inputs, i.cmd ≠ some Command.shutdown) →
      (∀ i ∈ inputs,
        i.cmd = some Command.disconnect → i.reconnect_ok = true) →
      (run_loop inputs s).1.running = true) ∧
    (s2.running = true →
      (run_loop [⟨now, some Command.disconnect, false⟩] s2).1.running
        = false) ∧
    (s2.running = true →
      (run_loop [⟨now, some Command.shutdown, true⟩] s2).1.running
        = false) := by
  refine ⟨fun hr hsd hdc => run_loop_running inputs s hr hsd hdc,
    fun hr => ?_, fun hr => ?_⟩
  · by_cases h : s2.recording = true <;>
      simp [run_loop, hr, handle_command, h, run_loop]
  · simp [run_loop, hr, handle_command]

/-- C9 amended witness: a session lifecycle with no shutdown and a
reconnecting disconnect keeps the loop running; a shutdown or a timed
out reconnect stops it. -/
theorem loop_termination_conditions_witness :
    (run_loop [⟨0, some Command.start_recording, true⟩, ⟨1, none, true⟩,
        ⟨2, some Command.stop_recording, true⟩,
        ⟨3, some Command.disconnect, true⟩, ⟨4, some Command.unknown, true⟩]
      (initRecorder 2 3 600)).1.running = true ∧
    (run_loop [⟨5, some Command.disconnect, false⟩]
      (initRecorder 2 3 600)).1.running = false ∧
    (run_loop [⟨5, some Command.shutdown, true⟩]
      (initRecorder 2 3 600)).1.running = false := by
  have h := loop_termination_conditions
    [⟨0, some Command.start_recording, true⟩, ⟨1, none, true⟩,
     ⟨2, some Command.stop_recording, true⟩,
     ⟨3, some Command.disconnect, true⟩, ⟨4, some Command.unknown, true⟩]
    (initRecorder 2 3 600) (initRecorder 2 3 600) 5
  exact ⟨h.1 rfl (by decide) (by decide), h.2.1 rfl, h.2.2 rfl⟩

end WhisperStream
